import Mathlib

/-!
Verification of the speech-fluency scoring engine of the Karma repository
(`service/score.py` and the batch loop of `app.py`), shallowly embedded in
Lean 4.  Python floats are modelled by ℚ (all arithmetic in the scoring
pipeline is field arithmetic on decimal literals); machine evaluation order
is irrelevant because every modelled function is pure.  Division by zero in
ℚ returns 0, a convention noted at each use site that Python could raise on.
The square root used by the population standard deviation (numpy `std`) is
irrational in general, so the embedding is parameterised by an arbitrary
function `sq : ℚ → ℚ` standing for the float square root; every theorem is
proved for all such functions whenever the claim does not depend on it.
-/

namespace Karma

/-! ## Constants from service/score.py (module header, lines 11-33) -/

def SAMPLE_RATE : ℚ := 22050

def FRAME_SIZE : ℕ := 512

def HOP_LENGTH : ℕ := 256

def MIN_SILENCE_DURATION : ℚ := 0.5

def SILENCE_THRESHOLD_FACTOR : ℚ := 0.5

/-- A metric range [min, max, ideal] as used throughout score.py; the ideal
component is optional, as in `normalize_score`. -/
abbrev MetricRange := ℚ × ℚ × Option ℚ

def WPM_RANGE_EN : MetricRange := (80, 220, some 150)

def PAUSE_FREQ_RANGE_EN : MetricRange := (0, 40, some 12)

def AVG_PAUSE_DURATION_RANGE_EN : MetricRange := (0.2, 1.5, some 0.6)

def FILLER_WORD_RATIO_RANGE_EN : MetricRange := (0.02, 0.3, some 0.06)

def PITCH_VARIATION_RANGE_EN : MetricRange := (50, 300, some 130)

def WPM_RANGE_VI : MetricRange := (70, 200, some 140)

def PAUSE_FREQ_RANGE_VI : MetricRange := (0, 45, some 15)

def AVG_PAUSE_DURATION_RANGE_VI : MetricRange := (0.2, 1.7, some 0.7)

def FILLER_WORD_RATIO_RANGE_VI : MetricRange := (0.02, 0.3, some 0.06)

def PITCH_VARIATION_RANGE_VI : MetricRange := (80, 350, some 160)

/-! ## normalize_score (score.py lines 455-477) -/

/-- Embedding of `normalize_score(value, range_values)`: score in [0,1] by
closeness of `value` to the ideal inside [min_val, max_val]; values outside
the range decay linearly with distance from the nearest bound. -/
def normalize_score (value : ℚ) (range_values : MetricRange) : ℚ :=
  let min_val := range_values.1
  let max_val := range_values.2.1
  let ideal_val := (range_values.2.2).getD ((min_val + max_val) / 2)
  if min_val = max_val then 1
  else
    let ideal_range := max_val - min_val
    if value < min_val then max 0 (1 - |min_val - value| / ideal_range)
    else if value > max_val then max 0 (1 - |value - max_val| / ideal_range)
    else max 0 (1 - |value - ideal_val| / ideal_range)

/-! ## Grade bucket mapping (score.py lines 553-555) -/

/-- Python `int()` applied to a float: truncation toward zero. -/
def pyInt (q : ℚ) : ℤ := if 0 ≤ q then ⌊q⌋ else ⌈q⌉

def SCORES : List String := ["A", "B", "C", "D", "F", "F"]

/-- Embedding of `score_index = min(5, max(0, int(5 - basic_fluency_score * 5)))`
from score.py line 554. -/
def code_score_index (s : ℚ) : ℕ := (min 5 (max 0 (pyInt (5 - s * 5)))).toNat

/-- Grade-bucket index as the spec words it: `clamp(5 - round(score*5), 0, 5)`.
This definition follows the wording of the spec (section 4.7) and exists only
to be compared with `code_score_index`, which is translated from the source. -/
def spec_score_index (s : ℚ) : ℕ := (min 5 (max 0 (5 - round (s * 5)))).toNat

/-! ## Claim C5: range and fixed points of normalize_score -/

/-- C5: for every real value and every range triple (min, max, ideal) with
min ≤ ideal ≤ max, `normalize_score value (min, max, ideal)` lies in [0, 1];
it equals exactly 1.0 when value = ideal; and when min = max it returns
exactly 1.0 regardless of value. -/
theorem C5_normalize_score_range (value mn mx ideal : ℚ)
    (h1 : mn ≤ ideal) (h2 : ideal ≤ mx) :
    (0 ≤ normalize_score value (mn, mx, some ideal) ∧
      normalize_score value (mn, mx, some ideal) ≤ 1) ∧
    (value = ideal → normalize_score value (mn, mx, some ideal) = 1) ∧
    (mn = mx → normalize_score value (mn, mx, some ideal) = 1) := by
  unfold normalize_score
  by_cases hmm : mn = mx
  · simp [hmm]
  · have hlt : mn < mx := lt_of_le_of_ne (h1.trans h2) hmm
    have hrange : (0 : ℚ) < mx - mn := by linarith
    simp only [if_neg hmm]
    refine ⟨?_, ?_, fun h => absurd h hmm⟩
    · by_cases hv1 : value < mn
      · simp only [if_pos hv1]
        constructor
        · exact le_max_left 0 _
        · have : (0 : ℚ) ≤ |mn - value| / (mx - mn) :=
            div_nonneg (abs_nonneg _) (le_of_lt hrange)
          have h1' : (1 : ℚ) - |mn - value| / (mx - mn) ≤ 1 := by linarith
          exact max_le (by norm_num) h1'
      · simp only [if_neg hv1]
        by_cases hv2 : value > mx
        · simp only [if_pos hv2]
          constructor
          · exact le_max_left 0 _
          · have : (0 : ℚ) ≤ |value - mx| / (mx - mn) :=
              div_nonneg (abs_nonneg _) (le_of_lt hrange)
            have h1' : (1 : ℚ) - |value - mx| / (mx - mn) ≤ 1 := by linarith
            exact max_le (by norm_num) h1'
        · simp only [if_neg hv2]
          constructor
          · exact le_max_left 0 _
          · have : (0 : ℚ) ≤ |value - ideal| / (mx - mn) :=
              div_nonneg (abs_nonneg _) (le_of_lt hrange)
            have h1' : (1 : ℚ) - |value - ideal| / (mx - mn) ≤ 1 := by linarith
            exact max_le (by norm_num) h1'
    · intro hvi
      subst hvi
      have hv1 : ¬ value < mn := not_lt.mpr h1
      have hv2 : ¬ value > mx := not_lt.mpr h2
      simp [hv1, hv2]

/-- Witness for C5 at value = 150, range (80, 220, 150): the English wpm range
at its ideal point. -/
theorem C5_normalize_score_range_witness :
    ((0 ≤ normalize_score 150 (80, 220, some 150) ∧
       normalize_score 150 (80, 220, some 150) ≤ 1) ∧
     (150 = (150 : ℚ) → normalize_score 150 (80, 220, some 150) = 1) ∧
     ((80 : ℚ) = 220 → normalize_score 150 (80, 220, some 150) = 1)) ∧
    normalize_score 150 (80, 220, some 150) = 1 := by
  refine ⟨C5_normalize_score_range 150 80 220 150 (by norm_num) (by norm_num), ?_⟩
  exact (C5_normalize_score_range 150 80 220 150 (by norm_num) (by norm_num)).2.1 rfl

/-! ## Claim C6: letter grade bucket index -/

/-- C6 counterexample: at composite score 7/8, the code (truncation via
`int()`) selects bucket index 0 (grade "A"), while the claimed formula
`clamp(5 - round(score*5), 0, 5)` selects index 1 (grade "B"). -/
theorem C6_grade_bucket_counterexample :
    code_score_index (7/8) = 0 ∧ spec_score_index (7/8) = 1 ∧
    SCORES.getD (code_score_index (7/8)) "F" = "A" ∧
    SCORES.getD (spec_score_index (7/8)) "F" = "B" := by
  have h1 : code_score_index (7/8) = 0 := by
    norm_num [code_score_index, pyInt]
  have h2 : spec_score_index (7/8) = 1 := by
    norm_num [spec_score_index, round_eq]
  refine ⟨h1, h2, ?_, ?_⟩ <;> simp [h1, h2, SCORES]

/-- C6 amended: for every composite fluency score in [0, 1], the letter grade
is chosen from the ordered buckets [A, B, C, D, F, F] at index
clamp(5 - ceil(score*5), 0, 5) (equivalently floor(5 - score*5): Python
`int()` truncates, it does not round to nearest). -/
theorem C6_grade_bucket_amended (s : ℚ) (h0 : 0 ≤ s) (h1 : s ≤ 1) :
    code_score_index s = (min 5 (max 0 (5 - ⌈s * 5⌉))).toNat := by
  unfold code_score_index pyInt
  have hnn : (0 : ℚ) ≤ 5 - s * 5 := by nlinarith [h0, h1]
  rw [if_pos hnn]
  have : (5 : ℚ) - s * 5 = ((5 : ℤ) : ℚ) + (-(s * 5)) := by push_cast; ring
  rw [this, Int.floor_int_add, Int.floor_neg]
  congr 2

/-- Witness for C6 amended at score 7/8. -/
theorem C6_grade_bucket_amended_witness :
    code_score_index (7/8) = (min 5 (max 0 (5 - ⌈(7/8 : ℚ) * 5⌉))).toNat :=
  C6_grade_bucket_amended (7/8) (by norm_num) (by norm_num)

/-! ## Text processing (score.py lines 46-62, 247-252, 274-289)

Python string helpers.  `lower()` is modelled by `String.toLower`; the
Vietnamese diacritic lexicons of the source are already lowercase, so the
ASCII-only lowering of Lean agrees with Python on every string made of ASCII
and the lowercase diacritic set, which covers all lexicon lookups.  The regex
`\b\w+\b` used with `findall` selects maximal runs of word characters; the
word-character class is modelled as ASCII alphanumerics, the underscore and
the Vietnamese diacritic set used by this repository. -/

def vietnamese_chars : List Char :=
  "àáảãạăằắẳẵặâầấẩẫậèéẻẽẹêềếểễệìíỉĩịòóỏõọôồốổỗộơờớởỡợùúủũụưừứửữựỳýỷỹỵđ".toList

def pyLower (s : String) : String := String.mk (s.toList.map Char.toLower)

/-- Embedding of `detect_language` (score.py lines 46-62): classify as
Vietnamese when any character of the fixed diacritic set occurs in the
lowercased text, else English. -/
def detect_language (text : String) : String :=
  if (pyLower text).toList.any (fun c => vietnamese_chars.contains c) then "vi"
  else "en"

def isWordChar (c : Char) : Bool :=
  c.isAlphanum || c == '_' || vietnamese_chars.contains c

/-- Maximal runs of word characters, as `re.findall(r'\b\w+\b', s)` produces
them; `cur` accumulates the current run in reverse. -/
def findWordRuns : List Char → List Char → List String
  | [], cur => if cur.isEmpty then [] else [String.mk cur.reverse]
  | c :: rest, cur =>
    if isWordChar c then findWordRuns rest (c :: cur)
    else if cur.isEmpty then findWordRuns rest []
    else String.mk cur.reverse :: findWordRuns rest []

def pyFindallWords (s : String) : List String := findWordRuns s.toList []

/-- Split a character list at every character satisfying `p`, keeping empty
pieces, exactly as `String.split` and Python `re.split` on a character class
do; `cur` accumulates the current piece in reverse. -/
def splitRuns (p : Char → Bool) : List Char → List Char → List String
  | [], cur => [String.mk cur.reverse]
  | c :: rest, cur =>
    if p c then String.mk cur.reverse :: splitRuns p rest []
    else splitRuns p rest (c :: cur)

/-- Python `str.split()` with no argument: split on whitespace runs,
discarding empty pieces. -/
def pySplitWs (s : String) : List String :=
  (splitRuns Char.isWhitespace s.toList []).filter (fun w => !w.toList.isEmpty)

/-- Python `str.strip()`: drop leading and trailing whitespace. -/
def pyStrip (s : String) : String :=
  String.mk
    (((s.toList.dropWhile Char.isWhitespace).reverse.dropWhile
      Char.isWhitespace).reverse)

/-- Number of occurrences of `w` in `ws` (one entry of `Counter(ws)`). -/
def countOcc (w : String) (ws : List String) : ℕ :=
  (ws.filter (fun x => x == w)).length

/-- Distinct elements of a list in order of first occurrence, skipping those
already in `seen`: the iteration order of a Python `Counter` built from the
list. -/
def dedupFirst (seen : List String) : List String → List String
  | [] => []
  | w :: ws =>
    if w ∈ seen then dedupFirst seen ws
    else w :: dedupFirst (w :: seen) ws

/-- The stop-word set of `detect_repetitions` (score.py lines 283-284). -/
def common_words : List String :=
  ["the", "a", "an", "and", "in", "on", "at", "to", "for", "with", "by",
   "of", "là", "và", "thì", "ở", "trong", "ngoài", "đó", "này", "kia"]

/-- A token qualifies as repetitive: more than 3 occurrences, not a stop
word, length above 1 (score.py lines 286-287). -/
def qualifiesRepetitive (ws : List String) (w : String) : Bool :=
  decide (countOcc w ws > 3) && decide (w ∉ common_words) &&
    decide (w.length > 1)

/-- Embedding of `detect_repetitions` (score.py lines 274-289): tokenize the
lowercased transcript, keep the qualifying tokens in first-occurrence order,
and return the sum of their occurrence counts with the token list. -/
def detect_repetitions (transcript : String) : ℕ × List String :=
  let words := pyFindallWords (pyLower transcript)
  let reps := (dedupFirst [] words).filter (qualifiesRepetitive words)
  ((reps.map (fun w => countOcc w words)).sum, reps)

lemma mem_dedupFirst (w : String) (ws : List String) :
    ∀ seen, w ∈ dedupFirst seen ws ↔ w ∈ ws ∧ w ∉ seen := by
  induction ws with
  | nil => intro seen; simp [dedupFirst]
  | cons x xs ih =>
    intro seen
    by_cases hx : x ∈ seen
    · rw [dedupFirst, if_pos hx, ih seen, List.mem_cons]
      constructor
      · exact fun h => ⟨Or.inr h.1, h.2⟩
      · rintro ⟨h1 | h1, h2⟩
        · exact absurd (h1 ▸ hx) h2
        · exact ⟨h1, h2⟩
    · rw [dedupFirst, if_neg hx, List.mem_cons, ih (x :: seen), List.mem_cons,
        List.mem_cons]
      constructor
      · rintro (rfl | ⟨h1, h2⟩)
        · exact ⟨Or.inl rfl, hx⟩
        · exact ⟨Or.inr h1, fun hs => h2 (Or.inr hs)⟩
      · rintro ⟨h1 | h1, h2⟩
        · exact Or.inl h1
        · by_cases hwx : w = x
          · exact Or.inl hwx
          · exact Or.inr ⟨h1, fun hs => hs.elim (fun h => hwx h) (fun h => h2 h)⟩

lemma countOcc_pos_mem (w : String) (ws : List String)
    (h : 0 < countOcc w ws) : w ∈ ws := by
  unfold countOcc at h
  have hne : ws.filter (fun x => x == w) ≠ [] := by
    intro hnil
    rw [hnil] at h
    simp at h
  obtain ⟨x, hx⟩ := List.exists_mem_of_ne_nil _ hne
  obtain ⟨hxmem, hxw⟩ := List.mem_filter.mp hx
  exact (eq_of_beq hxw) ▸ hxmem

/-! ## Claim C7: repetition detection -/

/-- C7: for every transcript, detect_repetitions tokenizes into word-character
runs and returns (sum of counts across qualifying tokens, list of qualifying
tokens); a token qualifies exactly when it occurs more than 3 times, is not
in the fixed stop-word set, and has length above 1. -/
theorem C7_detect_repetitions_characterization (t w : String) :
    (w ∈ (detect_repetitions t).2 ↔
      (countOcc w (pyFindallWords (pyLower t)) > 3 ∧ w ∉ common_words ∧
        w.length > 1)) ∧
    (detect_repetitions t).1 =
      ((detect_repetitions t).2.map
        (fun u => countOcc u (pyFindallWords (pyLower t)))).sum := by
  constructor
  · simp only [detect_repetitions, List.mem_filter]
    rw [mem_dedupFirst]
    simp only [qualifiesRepetitive, Bool.and_eq_true, decide_eq_true_eq]
    constructor
    · rintro ⟨⟨hmem, -⟩, ⟨h3, hcw⟩, hlen⟩
      exact ⟨h3, hcw, hlen⟩
    · rintro ⟨h3, hcw, hlen⟩
      exact ⟨⟨countOcc_pos_mem w _ (by omega), List.not_mem_nil w⟩,
        ⟨h3, hcw⟩, hlen⟩
  · rfl

/-! ## Statistics helpers (numpy mean and population standard deviation)

`np.std` needs a square root, which is irrational in general; the embedding
takes an arbitrary `sq : ℚ → ℚ` standing for the float square root and
applies it to the population variance. -/

def listMean (xs : List ℚ) : ℚ := xs.sum / (xs.length : ℚ)

def listVariance (xs : List ℚ) : ℚ :=
  listMean (xs.map (fun x => (x - listMean xs) ^ 2))

def listStd (sq : ℚ → ℚ) (xs : List ℚ) : ℚ := sq (listVariance xs)

/-! ## detect_ai_generated_text (score.py lines 352-408) -/

/-- Sentence pieces: `re.split(r'[.!?]+', transcript)`, stripped, nonempty
pieces kept (score.py lines 366-367).  Splitting at single terminator
characters rather than maximal runs only produces extra empty pieces, which
the nonempty filter removes, so the result agrees with the `[.!?]+` regex. -/
def splitSentences (t : String) : List String :=
  ((splitRuns (fun c => c == '.' || c == '!' || c == '?') t.toList []).map
    pyStrip).filter (fun s => !s.toList.isEmpty)

/-- The 3-grams `' '.join(words[i:i+3])` for i in range(len(words)-2). -/
def threeGrams (ws : List String) : List String :=
  (List.range (ws.length - 2)).map
    (fun i => String.intercalate " " ((ws.drop i).take 3))

def formal_markers_en : List String :=
  ["therefore", "thus", "consequently", "furthermore", "moreover",
   "however", "nevertheless", "regarding"]

def formal_markers_vi : List String :=
  ["tuy nhiên", "mặc dù", "vì vậy", "do đó", "theo đó", "ngoài ra",
   "đồng thời", "xét về"]

def disfluencies_en : List String :=
  ["um", "uh", "like", "you know", "i mean", "sort of"]

def disfluencies_vi : List String := ["à", "ừ", "kiểu", "thì là", "tức là"]

/-- Embedding of `detect_ai_generated_text` (score.py lines 352-408): a
human-likelihood score in [0, 1] from five text features; degenerate inputs
(fewer than 10 word tokens or fewer than 2 sentences) short-circuit to 1.0.
The multi-token entries of the marker and disfluency lexicons can never
equal a single token, exactly as in the source, where membership is tested
against single words. -/
def detect_ai_generated_text (sq : ℚ → ℚ) (transcript : String) : ℚ :=
  let words := pyFindallWords (pyLower transcript)
  if words.length < 10 then 1
  else
    let lexical_diversity : ℚ :=
      ((dedupFirst [] words).length : ℚ) / (words.length : ℚ)
    let sentences := splitSentences transcript
    if sentences.length < 2 then 1
    else
      let sent_lengths : List ℚ :=
        sentences.map (fun s => ((pyFindallWords s).length : ℚ))
      let sent_length_variation :=
        listStd sq sent_lengths / max 1 (listMean sent_lengths)
      let tgs := threeGrams words
      let repetitive_phrases : ℕ :=
        ((dedupFirst [] tgs).filter (fun g => decide (countOcc g tgs > 1))).length
      let repetition_score : ℚ :=
        min 1 ((repetitive_phrases : ℚ) / max 1 ((tgs.length : ℚ) / 10))
      let formal_markers :=
        if detect_language transcript = "vi" then formal_markers_vi
        else formal_markers_en
      let formal_count : ℕ :=
        (words.filter (fun w => decide (w ∈ formal_markers))).length
      let formality_score : ℚ :=
        min 1 ((formal_count : ℚ) / max 1 ((words.length : ℚ) / 20))
      let disfluencies :=
        if detect_language transcript = "vi" then disfluencies_vi
        else disfluencies_en
      let disfluency_count : ℕ :=
        (words.filter (fun w => decide (w ∈ disfluencies))).length
      let disfluency_score : ℚ :=
        min 1 ((disfluency_count : ℚ) / max 1 ((words.length : ℚ) / 30))
      let human_score :=
        lexical_diversity * 0.3 + sent_length_variation * 0.2 +
          (1 - repetition_score) * 0.2 + (1 - formality_score) * 0.15 +
          disfluency_score * 0.15
      min 1 (max 0 human_score)

/-! ## Claim C10: range and short-circuit of detect_ai_generated_text -/

/-- C10: for every transcript (and every square-root realization),
detect_ai_generated_text returns a score in [0, 1], and returns exactly 1.0
whenever the transcript has fewer than 10 word tokens or fewer than 2
sentences. -/
theorem C10_ai_score_range (sq : ℚ → ℚ) (t : String) :
    (0 ≤ detect_ai_generated_text sq t ∧ detect_ai_generated_text sq t ≤ 1) ∧
    ((pyFindallWords (pyLower t)).length < 10 ∨ (splitSentences t).length < 2 →
      detect_ai_generated_text sq t = 1) := by
  unfold detect_ai_generated_text
  by_cases h10 : (pyFindallWords (pyLower t)).length < 10
  · simp [h10]
  · simp only [if_neg h10]
    by_cases h2 : (splitSentences t).length < 2
    · simp [h2, h10]
    · simp only [if_neg h2]
      refine ⟨⟨?_, ?_⟩, ?_⟩
      · exact le_min (by norm_num) (le_max_left 0 _)
      · exact min_le_left 1 _
      · rintro (h | h)
        · exact absurd h h10
        · exact absurd h h2

/-- Witness for C10 at a degenerate input: a transcript with a single word
token short-circuits to 1. -/
theorem C10_ai_score_range_witness :
    (0 ≤ detect_ai_generated_text (fun q => q) "hello" ∧
      detect_ai_generated_text (fun q => q) "hello" ≤ 1) ∧
    detect_ai_generated_text (fun q => q) "hello" = 1 := by
  refine ⟨(C10_ai_score_range (fun q => q) "hello").1, ?_⟩
  exact (C10_ai_score_range (fun q => q) "hello").2 (Or.inl (by decide))

/-! ## detect_silence (score.py lines 196-236) -/

/-- The edge-triggered scan over the boolean silence mask (score.py lines
209-234).  `i` is the current frame index, `inSil`/`start` the two-state
walk; a segment is emitted at a silence-to-speech transition, and once more
at the end of the mask for an open silence run, each time only when its
duration `(end - start) * hop / sr` reaches MIN_SILENCE_DURATION. -/
def silenceScan (hop sr : ℚ) : List Bool → ℕ → Bool → ℕ → List (ℚ × ℚ)
  | [], i, inSil, start =>
    if inSil then
      if MIN_SILENCE_DURATION ≤ ((i : ℚ) - (start : ℚ)) * hop / sr then
        [((start : ℚ) * hop / sr, (i : ℚ) * hop / sr)]
      else []
    else []
  | silent :: rest, i, inSil, start =>
    if silent && !inSil then silenceScan hop sr rest (i + 1) true i
    else if !silent && inSil then
      (if MIN_SILENCE_DURATION ≤ ((i : ℚ) - (start : ℚ)) * hop / sr then
        [((start : ℚ) * hop / sr, (i : ℚ) * hop / sr)]
      else []) ++ silenceScan hop sr rest (i + 1) false start
    else silenceScan hop sr rest (i + 1) inSil start

/-- Embedding of `detect_silence(energy, sr, hop_length, threshold_factor)`:
fewer than 2 frames yield no segments; otherwise frames strictly below
`mean(energy) * threshold_factor` are silent and contiguous silent runs of
duration at least MIN_SILENCE_DURATION become (start, end) second pairs. -/
def detect_silence (energy : List ℚ) (sr : ℚ) (hop_length : ℚ := (HOP_LENGTH : ℚ))
    (threshold_factor : ℚ := SILENCE_THRESHOLD_FACTOR) : List (ℚ × ℚ) :=
  if energy.length < 2 then []
  else
    let silence_threshold := listMean energy * threshold_factor
    silenceScan hop_length sr
      (energy.map (fun e => decide (e < silence_threshold))) 0 false 0

/-! ## Claim C9: constant-energy signals and the silence segmenter -/

lemma silenceScan_all_false (hop sr : ℚ) (m : ℕ) :
    ∀ i start, silenceScan hop sr (List.replicate m false) i false start = [] := by
  induction m with
  | zero => intro i start; simp [silenceScan]
  | succ n ih =>
    intro i start
    rw [List.replicate_succ, silenceScan]
    simp only [Bool.false_and, Bool.not_false, Bool.and_false, if_neg
      (Bool.false_ne_true), ite_self]
    exact ih (i + 1) start

lemma listMean_replicate (n : ℕ) (c : ℚ) (h : n ≠ 0) :
    listMean (List.replicate n c) = c := by
  unfold listMean
  rw [List.sum_replicate, List.length_replicate, nsmul_eq_mul]
  have hn : (n : ℚ) ≠ 0 := by exact_mod_cast h
  field_simp

/-- C9 counterexample: a constant-energy envelope of 50 frames at level 1
(about 0.58 s at the default 256-sample hop and 22050 Hz rate, which is at
least the 0.5 s minimum silence length) produces zero silence intervals,
not one interval spanning the whole signal; the premise of the claim is
unsatisfiable because a constant level is never strictly below half of its
own mean. -/
theorem C9_constant_silence_counterexample :
    MIN_SILENCE_DURATION ≤ (50 : ℚ) * (HOP_LENGTH : ℚ) / 22050 ∧
    ¬ ((1 : ℚ) < listMean (List.replicate 50 (1 : ℚ)) * SILENCE_THRESHOLD_FACTOR) ∧
    detect_silence (List.replicate 50 (1 : ℚ)) 22050 = [] := by
  have hmean : listMean (List.replicate 50 (1 : ℚ)) = 1 :=
    listMean_replicate 50 1 (by norm_num)
  refine ⟨?_, ?_, ?_⟩
  · norm_num [MIN_SILENCE_DURATION, HOP_LENGTH]
  · rw [hmean]
    norm_num [SILENCE_THRESHOLD_FACTOR]
  · unfold detect_silence
    rw [if_neg (by simp)]
    have hmap : (List.replicate 50 (1 : ℚ)).map
        (fun e => decide (e < listMean (List.replicate 50 (1 : ℚ)) *
          SILENCE_THRESHOLD_FACTOR)) = List.replicate 50 false := by
      rw [List.map_replicate, hmean]
      norm_num [SILENCE_THRESHOLD_FACTOR]
    simp only [hmap]
    exact silenceScan_all_false _ _ 50 0 0

/-- C9 amended: for every constant-energy signal (any number of frames at a
fixed nonnegative level), detect_silence returns zero intervals regardless
of the total duration: no frame of a constant envelope is ever strictly
below the threshold mean(energy) x 0.5, so the premise of the original
claim (a constant envelope entirely below its own threshold) cannot be
satisfied, and the single full-span interval is never produced. -/
theorem C9_constant_silence_amended (n : ℕ) (c sr hop : ℚ) (hc : 0 ≤ c) :
    detect_silence (List.replicate n c) sr hop SILENCE_THRESHOLD_FACTOR = [] := by
  unfold detect_silence
  by_cases hn : (List.replicate n c).length < 2
  · rw [if_pos hn]
  · rw [if_neg hn]
    have hne : n ≠ 0 := by
      intro h
      rw [h] at hn
      simp at hn
    have hmean : listMean (List.replicate n c) = c := listMean_replicate n c hne
    have hmap : (List.replicate n c).map
        (fun e => decide (e < listMean (List.replicate n c) *
          SILENCE_THRESHOLD_FACTOR)) = List.replicate n false := by
      rw [List.map_replicate, hmean]
      have : ¬ (c < c * SILENCE_THRESHOLD_FACTOR) := by
        unfold SILENCE_THRESHOLD_FACTOR
        nlinarith
      simp [this]
    simp only [hmap]
    exact silenceScan_all_false hop sr n 0 0

/-- Witness for C9 amended at the counterexample envelope. -/
theorem C9_constant_silence_amended_witness :
    detect_silence (List.replicate 50 (1 : ℚ)) 22050 (HOP_LENGTH : ℚ)
      SILENCE_THRESHOLD_FACTOR = [] :=
  C9_constant_silence_amended 50 1 22050 (HOP_LENGTH : ℚ) (by norm_num)

/-! ## Audio oracle and extract_audio_features (score.py lines 87-194)

The decoding and signal-processing backends (pydub, librosa rms and pyin)
are external to the scoring logic; their outcome for the audio bytes of one
submission is captured by an `AudioOracle`.  `decode = none` models
`load_mp3_as_np` returning the `(None, None)` sentinel (unparseable or
empty audio); `rmsEnergy = none` models the rms computation raising, in
which case `extract_audio_features` substitutes the placeholder arrays
`[0.0]`; `pyinF0 = none` models pyin raising, replaced by a zero array.
`consistency` is the value of `calculate_speech_rate_consistency`, which by
construction never raises (score.py lines 291-350).  Float arithmetic is ℚ
and the ℚ convention `x / 0 = 0` stands in for the float corner cases. -/

structure AudioOracle where
  decode : Option (ℕ × ℚ)
  rmsEnergy : Option (List ℚ)
  pyinF0 : Option (List ℚ)
  consistency : ℚ
  deriving DecidableEq

structure Features where
  nsamples : ℕ
  sr : ℚ
  duration : ℚ
  energy : List ℚ
  f0 : List ℚ
  deriving DecidableEq

def MAX_DURATION : ℚ := 300

/-- Embedding of `extract_audio_features` (score.py lines 140-194): `none`
models the `ValueError` raised on a decode failure; otherwise duration is
computed (0 when the rate is not positive), audio longer than MAX_DURATION
is truncated, and the rms / pyin outcomes of the oracle are substituted
with their zero-filled placeholders on failure exactly as in the source. -/
def extract_audio_features (o : AudioOracle) : Option Features :=
  match o.decode with
  | none => none
  | some (n0, sr) =>
    let duration0 : ℚ := if 0 < sr then (n0 : ℚ) / sr else 0
    let n := if MAX_DURATION < duration0 then
        min n0 (pyInt (MAX_DURATION * sr)).toNat
      else n0
    let duration := if MAX_DURATION < duration0 then MAX_DURATION else duration0
    match o.rmsEnergy with
    | none => some ⟨n, sr, duration, [0], [0]⟩
    | some energy =>
      let f0 := if 0 < n then
          match o.pyinF0 with
          | some f0 => f0
          | none => List.replicate (n / HOP_LENGTH + 1) 0
        else [0]
      some ⟨n, sr, duration, energy, f0⟩

/-! ## Per-metric helpers (score.py lines 241-272) -/

def calculate_wpm (num_words : ℕ) (duration : ℚ) : ℚ :=
  if 0 < duration then (num_words : ℚ) / (duration / 60) else 0

def FILLER_WORDS_EN : List String :=
  ["um", "uh", "er", "like", "you", "know", "i", "mean", "so", "actually"]

def FILLER_WORDS_VI : List String :=
  ["à", "ừ", "ờ", "ư", "thì", "mà", "là", "kiểu", "tức là", "vậy đó"]

def get_filler_words_for_language (language : String) : List String :=
  if language = "vi" then FILLER_WORDS_VI else FILLER_WORDS_EN

def count_filler_words (transcript : String) (language : String) : ℕ :=
  ((pySplitWs (pyLower transcript)).filter
    (fun w => decide (w ∈ get_filler_words_for_language language))).length

def calculate_pause_frequency (silence_segments : List (ℚ × ℚ))
    (duration : ℚ) : ℚ :=
  if 0 < duration then (silence_segments.length : ℚ) / (duration / 60) else 0

def calculate_average_pause_duration (silence_segments : List (ℚ × ℚ)) : ℚ :=
  if silence_segments.isEmpty then 0
  else (silence_segments.map (fun p => p.2 - p.1)).sum /
    (silence_segments.length : ℚ)

def calculate_pitch_variation (sq : ℚ → ℚ) (f0 : List ℚ) : ℚ :=
  let f0_voiced := f0.filter (fun x => decide (0 < x))
  if 1 < f0_voiced.length then listStd sq f0_voiced else 0

/-! ## Language range tables (score.py lines 68-85) -/

structure Ranges where
  wpm : MetricRange
  pause_freq : MetricRange
  pause_duration : MetricRange
  filler_ratio : MetricRange
  pitch_variation : MetricRange

def get_ranges_for_language (language : String) : Ranges :=
  if language = "vi" then
    ⟨WPM_RANGE_VI, PAUSE_FREQ_RANGE_VI, AVG_PAUSE_DURATION_RANGE_VI,
      FILLER_WORD_RATIO_RANGE_VI, PITCH_VARIATION_RANGE_VI⟩
  else
    ⟨WPM_RANGE_EN, PAUSE_FREQ_RANGE_EN, AVG_PAUSE_DURATION_RANGE_EN,
      FILLER_WORD_RATIO_RANGE_EN, PITCH_VARIATION_RANGE_EN⟩

/-! ## Result dictionaries

`evaluate_fluency` returns a Python dict; key presence matters (the batch
loop of app.py reads a key that is never there), so results are modelled as
ordered association lists of string keys. -/

inductive FVal where
  | s (v : String)
  | q (v : ℚ)
  | ws (v : List String)
  deriving DecidableEq

abbrev FDict := List (String × FVal)

def FDict.get? (d : FDict) (k : String) : Option FVal :=
  (d.find? (fun p => p.1 == k)).map (fun p => p.2)

def FDict.keys (d : FDict) : List String := d.map (fun p => p.1)

/-- Assignment `d[k] = v` for a key already present: replace in place,
preserving order (Python dict update semantics; only used for
"overall_score", which every result dictionary contains). -/
def FDict.set (d : FDict) (k : String) (v : FVal) : FDict :=
  d.map (fun p => if p.1 == k then (k, v) else p)

/-- String payload of a key, 0-like default for the keys always present. -/
def FDict.getS (d : FDict) (k : String) : String :=
  match d.get? k with
  | some (FVal.s v) => v
  | _ => ""

def FDict.getQ (d : FDict) (k : String) : ℚ :=
  match d.get? k with
  | some (FVal.q v) => v
  | _ => 0

/-- `dict.get(k, default)` for a numeric payload. -/
def FDict.getQD (d : FDict) (k : String) (default : ℚ) : ℚ :=
  match d.get? k with
  | some (FVal.q v) => v
  | _ => default

/-! ## round_score (score.py lines 43-44) -/

/-- Python `round()` to the nearest integer, ties to the even integer. -/
def pyRoundHalfEven (x : ℚ) : ℤ :=
  let f := ⌊x⌋
  let r := x - (f : ℚ)
  if r < 1/2 then f
  else if 1/2 < r then f + 1
  else if f % 2 = 0 then f else f + 1

/-- `round(num, DIGITS_AFTER_DECIMAL)` with DIGITS_AFTER_DECIMAL = 2. -/
def round_score (x : ℚ) : ℚ := (pyRoundHalfEven (x * 100) : ℚ) / 100

/-! ## analyze_audio_transcript_mismatch (score.py lines 410-453) -/

/-- Embedding of `analyze_audio_transcript_mismatch`; the audio features are
the (deterministic) result of re-extracting from the same audio bytes, so
they are passed in directly.  Mirrors the source: duration ratio against an
expected 0.5 s per word, coefficient of variation of per-segment mean
energy scored against the natural-speech band, silence-count ratio, and the
0.8 short-circuit when segments hold fewer than 5 frames. -/
def analyze_audio_transcript_mismatch (sq : ℚ → ℚ) (feats : Features)
    (transcript : String) : ℚ :=
  let duration := feats.duration
  let word_count := (pySplitWs transcript).length
  let expected_duration : ℚ := (word_count : ℚ) * 0.5
  let duration_ratio :=
    min duration expected_duration / max duration expected_duration
  let sentences := splitSentences transcript
  let num_segments := max sentences.length 3
  let segment_length := feats.energy.length / num_segments
  if segment_length < 5 then 0.8
  else
    let segment_energies : List ℚ :=
      ((List.range feats.energy.length).filter
        (fun i => decide (i % segment_length = 0) &&
          decide (i + segment_length ≤ feats.energy.length))).map
        (fun i => listMean ((feats.energy.drop i).take segment_length))
    let energy_variation :=
      if 0 < listMean segment_energies then
        listStd sq segment_energies / listMean segment_energies
      else 0
    let energy_match_score :=
      if energy_variation ≤ 0.6 then min 1 (energy_variation / 0.4)
      else max 0 (1 - (energy_variation - 0.6) / 0.4)
    let silence_segments := detect_silence feats.energy feats.sr
    let expected_silence_count := max 1 (sentences.length - 1)
    let silence_ratio : ℚ :=
      ((min silence_segments.length expected_silence_count : ℕ) : ℚ) /
        (expected_silence_count : ℚ)
    let match_score :=
      duration_ratio * 0.4 + energy_match_score * 0.4 + silence_ratio * 0.2
    min 1 (max 0 match_score)

/-! ## evaluate_fluency (score.py lines 479-620)

The pipeline is factored into named values (one per local variable of the
source); `evaluate_fluency` assembles them.  The inner try/except around
feature extraction is the `Option` returned by `extract_audio_features`;
every other inner handler guards computations that are total here, and the
outermost except of the source is unreachable because every branch below
returns normally. -/

def duration_of (feats : Features) : ℚ :=
  if feats.duration ≤ 0 then 1 else feats.duration

def num_words_of (transcript : String) : ℕ := (pySplitWs transcript).length

def wpm_of (feats : Features) (transcript : String) : ℚ :=
  calculate_wpm (num_words_of transcript) (duration_of feats)

def silence_of (feats : Features) : List (ℚ × ℚ) :=
  detect_silence feats.energy feats.sr

def pause_freq_of (feats : Features) : ℚ :=
  calculate_pause_frequency (silence_of feats) (duration_of feats)

def avg_pause_of (feats : Features) : ℚ :=
  calculate_average_pause_duration (silence_of feats)

def filler_count_of (transcript : String) : ℕ :=
  count_filler_words transcript (detect_language transcript)

def pitch_variation_of (sq : ℚ → ℚ) (feats : Features) : ℚ :=
  calculate_pitch_variation sq feats.f0

/-- The weighted sum of normalized metrics, clamped to [0, 1]
(score.py lines 539-548). -/
def basic_fluency_score (sq : ℚ → ℚ) (feats : Features)
    (transcript : String) : ℚ :=
  let ranges := get_ranges_for_language (detect_language transcript)
  max 0 (min 1 (
    0.25 * normalize_score (wpm_of feats transcript) ranges.wpm +
    0.25 * normalize_score (pause_freq_of feats) ranges.pause_freq +
    0.2 * normalize_score (avg_pause_of feats) ranges.pause_duration +
    0.2 * normalize_score ((filler_count_of transcript : ℚ) /
      ((max 1 (num_words_of transcript) : ℕ) : ℚ)) ranges.filler_ratio +
    0.1 * normalize_score (pitch_variation_of sq feats) ranges.pitch_variation))

def base_score_index (sq : ℚ → ℚ) (feats : Features)
    (transcript : String) : ℕ :=
  code_score_index (basic_fluency_score sq feats transcript)

/-- The result dictionary returned when audio processing fails
(score.py lines 494-506; also the shape of lines 608-620). -/
def errorResult (language : String) (msg : String) : FDict :=
  [("language", FVal.s language), ("overall_score", FVal.s "F"),
   ("error", FVal.s msg), ("wpm", FVal.q 0), ("pause_frequency", FVal.q 0),
   ("average_pause_duration", FVal.q 0), ("filler_word_count", FVal.q 0),
   ("pitch_variation", FVal.q 0), ("repetition_count", FVal.q 0),
   ("repetitive_words", FVal.ws []), ("speech_rate_consistency", FVal.q 0)]

/-- The result dictionary of a successful evaluation
(score.py lines 572-583), in source order. -/
def baseResult (sq : ℚ → ℚ) (o : AudioOracle) (feats : Features)
    (t : String) : FDict :=
  [("language", FVal.s (detect_language t)),
   ("overall_score", FVal.s (SCORES.getD (base_score_index sq feats t) "F")),
   ("wpm", FVal.q (round_score (wpm_of feats t))),
   ("pause_frequency", FVal.q (round_score (pause_freq_of feats))),
   ("average_pause_duration", FVal.q (round_score (avg_pause_of feats))),
   ("filler_word_count", FVal.q (round_score (filler_count_of t : ℚ))),
   ("pitch_variation", FVal.q (round_score (pitch_variation_of sq feats))),
   ("repetition_count", FVal.q ((detect_repetitions t).1 : ℚ)),
   ("repetitive_words", FVal.ws (detect_repetitions t).2),
   ("speech_rate_consistency", FVal.q (round_score o.consistency))]

/-- `scores[min(5, max(0, score_index + 1))]`: the grade one bucket below
the base bucket, clamped at index 5 (score.py lines 596 and 599). -/
def demoted_grade (sq : ℚ → ℚ) (feats : Features) (t : String) : String :=
  SCORES.getD (min 5 (base_score_index sq feats t + 1)) "F"

/-- The Vietnamese-only adjustment (score.py lines 586-603): add the two
authenticity keys, then demote the grade when the human-likelihood score is
below 0.5, and again from the same base index when the audio-transcript
match is below 0.7. -/
def viAdjust (sq : ℚ → ℚ) (feats : Features) (t : String)
    (base : FDict) : FDict :=
  let ai := detect_ai_generated_text sq t
  let am := analyze_audio_transcript_mismatch sq feats t
  let d := base ++ [("human_likelihood_score", FVal.q ai),
    ("audio_transcript_match", FVal.q am)]
  let d1 := if ai < 0.5 then
      FDict.set d "overall_score" (FVal.s (demoted_grade sq feats t))
    else d
  if am < 0.7 then
    FDict.set d1 "overall_score" (FVal.s (demoted_grade sq feats t))
  else d1

/-- Embedding of `evaluate_fluency(audio_bytes, transcript)`; the audio
bytes enter through the oracle describing their decode and extraction
outcomes. -/
def evaluate_fluency (sq : ℚ → ℚ) (o : AudioOracle)
    (transcript : String) : FDict :=
  match extract_audio_features o with
  | none => errorResult (detect_language transcript) "Audio processing failed"
  | some feats =>
    if detect_language transcript = "vi" then
      viAdjust sq feats transcript (baseResult sq o feats transcript)
    else baseResult sq o feats transcript

/-! ## Key structure of the result dictionaries -/

lemma FDict.keys_set (d : FDict) (k : String) (v : FVal) :
    FDict.keys (FDict.set d k v) = FDict.keys d := by
  unfold FDict.set FDict.keys
  rw [List.map_map]
  apply List.map_congr_left
  intro p hp
  by_cases h : p.1 == k
  · simp [Function.comp, h, eq_of_beq h]
  · simp [Function.comp, h]

lemma FDict.keys_append (d1 d2 : FDict) :
    FDict.keys (d1 ++ d2) = FDict.keys d1 ++ FDict.keys d2 :=
  List.map_append _ _ _

lemma FDict.get?_eq_none_iff (d : FDict) (k : String) :
    FDict.get? d k = none ↔ k ∉ FDict.keys d := by
  unfold FDict.get? FDict.keys
  rw [Option.map_eq_none', List.find?_eq_none]
  constructor
  · intro h hk
    obtain ⟨p, hp, hpk⟩ := List.mem_map.mp hk
    exact absurd (by simp [hpk]) (h p hp)
  · intro h p hp hpk
    rw [← eq_of_beq hpk] at h
    exact h (List.mem_map_of_mem (fun p => p.1) hp)

lemma keys_errorResult (language msg : String) :
    FDict.keys (errorResult language msg) =
      ["language", "overall_score", "error", "wpm", "pause_frequency",
       "average_pause_duration", "filler_word_count", "pitch_variation",
       "repetition_count", "repetitive_words", "speech_rate_consistency"] :=
  rfl

lemma keys_baseResult (sq : ℚ → ℚ) (o : AudioOracle) (feats : Features)
    (t : String) :
    FDict.keys (baseResult sq o feats t) =
      ["language", "overall_score", "wpm", "pause_frequency",
       "average_pause_duration", "filler_word_count", "pitch_variation",
       "repetition_count", "repetitive_words", "speech_rate_consistency"] :=
  rfl

lemma keys_viAdjust (sq : ℚ → ℚ) (feats : Features) (t : String)
    (base : FDict) :
    FDict.keys (viAdjust sq feats t base) =
      FDict.keys base ++ ["human_likelihood_score", "audio_transcript_match"] := by
  simp only [viAdjust]
  split_ifs <;>
    simp only [FDict.keys_set, FDict.keys_append] <;> rfl

/-- The central fact behind claim C3: no result dictionary of
evaluate_fluency ever carries a "percentage" key. -/
lemma evaluate_fluency_no_percentage (sq : ℚ → ℚ) (o : AudioOracle)
    (t : String) :
    FDict.get? (evaluate_fluency sq o t) "percentage" = none := by
  rw [FDict.get?_eq_none_iff]
  unfold evaluate_fluency
  cases hext : extract_audio_features o with
  | none =>
    rw [keys_errorResult]
    decide
  | some feats =>
    show "percentage" ∉ FDict.keys
      (if detect_language t = "vi" then
        viAdjust sq feats t (baseResult sq o feats t)
      else baseResult sq o feats t)
    by_cases hvi : detect_language t = "vi"
    · rw [if_pos hvi, keys_viAdjust, keys_baseResult]
      decide
    · rw [if_neg hvi, keys_baseResult]
      decide

/-! ## get_fluency_feedback (score.py lines 622-674)

The f-string float formatting of the source affects only message text;
numbers are rendered here with `toString` on ℚ, which no claim inspects. -/

def get_fluency_feedback (fl : FDict) : List String :=
  let language := FDict.getS fl "language"
  let ranges := get_ranges_for_language language
  let wpm := FDict.getQ fl "wpm"
  let rate_fb : List String :=
    if wpm < ranges.wpm.1 then
      ["Your speaking rate of " ++ toString wpm ++
        " words per minute is slower than the recommended " ++
        toString ranges.wpm.1 ++ "-" ++ toString ranges.wpm.2.1 ++
        " wpm range. Consider practicing speaking at a slightly faster pace."]
    else if ranges.wpm.2.1 < wpm then
      ["Your speaking rate of " ++ toString wpm ++
        " words per minute is faster than the recommended " ++
        toString ranges.wpm.1 ++ "-" ++ toString ranges.wpm.2.1 ++
        " wpm range. Try slowing down a bit to improve clarity."]
    else []
  let pause_freq := FDict.getQ fl "pause_frequency"
  let freq_fb : List String :=
    if ranges.pause_freq.2.1 < pause_freq then
      ["You\x27re pausing too frequently (" ++ toString pause_freq ++
        " pauses per minute). Try to speak in longer, more complete phrases."]
    else []
  let avg_pause := FDict.getQ fl "average_pause_duration"
  let pause_fb : List String :=
    if ranges.pause_duration.2.1 < avg_pause then
      ["Your pauses are quite long (average " ++ toString avg_pause ++
        " seconds). Work on reducing pause duration to maintain listener engagement."]
    else []
  let filler_count := FDict.getQ fl "filler_word_count"
  let filler_fb : List String :=
    if 0 < filler_count then
      ["You used " ++ toString filler_count ++
        " filler words. Reducing these will make your speech sound more confident."]
    else []
  let repetition_count := FDict.getQ fl "repetition_count"
  let rep_fb : List String :=
    if 5 < repetition_count then
      ["You repeated some words excessively (" ++ toString repetition_count ++
        " instances). Try to use more varied vocabulary."]
    else []
  let consistency := FDict.getQ fl "speech_rate_consistency"
  let cons_fb : List String :=
    if consistency < 0.6 then
      ["Your speaking pace varies considerably. Practice maintaining a more consistent rate of speech."]
    else []
  let vi_fb : List String :=
    if language = "vi" then
      (if FDict.getQD fl "human_likelihood_score" 1 < 0.7 then
        ["Your speech patterns seem somewhat artificial or rehearsed. Try to speak more naturally and conversationally."]
      else []) ++
      (if FDict.getQD fl "audio_transcript_match" 1 < 0.7 then
        ["There appears to be some mismatch between your audio and transcript. Please ensure you\x27re speaking the exact words in the transcript."]
      else [])
    else []
  rate_fb ++ freq_fb ++ pause_fb ++ filler_fb ++ rep_fb ++ cons_fb ++ vi_fb

/-! ## The batch loop of app.py /api/audio-score (app.py lines 103-168)

One submission of the request body: `index` is the optional "index" entry,
`answer` the transcript, and `recordProof` the outcome of
`base64.b64decode` on the "recordProof" entry — `Except.error e` when
decoding raises with message `e`, `Except.ok oracle` when it yields audio
bytes whose decode/extraction behavior is `oracle`. -/

structure Submission where
  index : Option ℕ
  answer : String
  recordProof : Except String AudioOracle

/-- One entry of the per-submission result list; `percentage = none` models
the absence of the "percentage" key (the failure entry of app.py lines
149-153 does not carry it). -/
structure ItemResult where
  index : ℕ
  comment : String
  score : String
  percentage : Option FVal
  deriving DecidableEq

/-- `str(KeyError(k))` is the key in single quotes. -/
def keyErrorText (k : String) : String := "\x27" ++ k ++ "\x27"

/-- Embedding of the submission loop of the `score` endpoint (app.py lines
116-153), with `i` as the 0-based enumeration counter.  `Except.error`
models the `return jsonify(error), 400` inside the loop (line 127), which
aborts the whole request; `Except.ok` carries the accumulated result list
and the `all_fluency_scores` list.  Within one iteration: the decode
exception handler returns the 400 error; otherwise `evaluate_fluency` and
`get_fluency_feedback` run and the subscript
`fluency_results["percentage"]` decides between the success entry (key
present) and the per-item exception handler entry with score "F" (key
missing raises `KeyError`, caught at lines 147-153). -/
def scoreLoop (sq : ℚ → ℚ) :
    List Submission → ℕ → Except String (List ItemResult × List FVal)
  | [], _ => Except.ok ([], [])
  | sub :: rest, i =>
    match sub.recordProof with
    | Except.error e =>
      Except.error ("Invalid audio data for submission " ++
        toString (sub.index.getD (i + 1)) ++ ": " ++ e)
    | Except.ok oracle =>
      match FDict.get? (evaluate_fluency sq oracle sub.answer) "percentage" with
      | some p =>
        match scoreLoop sq rest (i + 1) with
        | Except.error e => Except.error e
        | Except.ok (items, scs) =>
          Except.ok
            ({ index := sub.index.getD (i + 1),
               comment := String.intercalate "; "
                 (get_fluency_feedback (evaluate_fluency sq oracle sub.answer)),
               score := FDict.getS (evaluate_fluency sq oracle sub.answer)
                 "overall_score",
               percentage := some p } :: items, p :: scs)
      | none =>
        match scoreLoop sq rest (i + 1) with
        | Except.error e => Except.error e
        | Except.ok (items, scs) =>
          Except.ok
            ({ index := sub.index.getD 0,
               comment := "Error processing submission: " ++
                 keyErrorText "percentage",
               score := "F",
               percentage := none } :: items, scs)

/-! ## Claim C1: the names imported by app.py from the scoring module -/

/-- The top-level function names defined by service/score.py, in source
order (lines 43-622). -/
def score_module_defs : List String :=
  ["round_score", "detect_language", "get_filler_words_for_language",
   "get_ranges_for_language", "load_mp3_as_np", "extract_audio_features",
   "detect_silence", "calculate_wpm", "count_filler_words",
   "calculate_pause_frequency", "calculate_average_pause_duration",
   "calculate_pitch_variation", "detect_repetitions",
   "calculate_speech_rate_consistency", "detect_ai_generated_text",
   "analyze_audio_transcript_mismatch", "normalize_score",
   "evaluate_fluency", "get_fluency_feedback"]

/-- The names app.py line 5 imports from service.score. -/
def app_score_import_names : List String :=
  ["evaluate_fluency", "get_fluency_feedback", "calculate_overall_grade",
   "generate_combined_feedback"]

/-- The top-level function names defined anywhere else in the repository
(app.py, run.py, the tts/stt/lip-sync modules), for the "defined nowhere in
the source" part of the claim. -/
def other_repo_defs : List String :=
  ["index", "tts_api", "lip_sync", "score", "get_voice",
   "generate_edge_tts", "save_audio", "on_finished_utterance",
   "list_voices", "speak", "set_vie_reader", "set_eng_reader",
   "get_audio_duration", "load_template_json", "adjust_timestamps",
   "convert_mp3_bytes_to_wav_bytes", "run_rhubarb_lip_sync_bytes",
   "sync_save_audio", "audio_to_mouthshape_json", "set_tts_config",
   "edge_get_voice", "generate_edge", "edge_save_audio",
   "convert_mp3_to_wav", "run_rhubarb_lip_sync", "text_to_mouthshape_json",
   "transcribe_audio", "get_large_audio_transcription_on_silence",
   "live_recognition", "load_config_from_yaml", "load_config", "load",
   "main"]

/-- C1: the batch aggregation endpoint depends on `calculate_overall_grade`
and `generate_combined_feedback`, which app.py imports from service.score
(line 5) and calls (lines 156 and 159), yet neither name is defined in
service/score.py or anywhere else in the repository, so the import itself
fails and the batch aggregation operation can never complete. -/
theorem C1_missing_aggregation_functions :
    "calculate_overall_grade" ∈ app_score_import_names ∧
    "generate_combined_feedback" ∈ app_score_import_names ∧
    "calculate_overall_grade" ∉ score_module_defs ∧
    "generate_combined_feedback" ∉ score_module_defs ∧
    "calculate_overall_grade" ∉ other_repo_defs ∧
    "generate_combined_feedback" ∉ other_repo_defs := by
  decide

/-! ## Claim C3: every submission takes the exception branch -/

/-- The per-item entry produced by the exception handler of app.py lines
149-153 for the `KeyError` on "percentage". -/
def failItem (s : Submission) : ItemResult :=
  { index := s.index.getD 0,
    comment := "Error processing submission: " ++ keyErrorText "percentage",
    score := "F",
    percentage := none }

/-- C3: for every batch whose submissions all base64-decode (so the loop is
not aborted), every per-item result takes the exception branch — score "F",
the KeyError comment, no percentage key — because no evaluate_fluency
result carries the "percentage" key; consequently the collected list of
percentage scores passed to aggregation is empty. -/
theorem C3_percentage_keyerror (sq : ℚ → ℚ) (subs : List Submission) (i : ℕ)
    (h : ∀ s ∈ subs, ∃ o, s.recordProof = Except.ok o) :
    scoreLoop sq subs i = Except.ok (subs.map failItem, []) := by
  induction subs generalizing i with
  | nil => rfl
  | cons s rest ih =>
    obtain ⟨o, ho⟩ := h s (List.mem_cons_self s rest)
    cases hrp : s.recordProof with
    | error e => rw [hrp] at ho; simp at ho
    | ok oracle =>
      have hrest := ih (i + 1) (fun x hx => h x (List.mem_cons_of_mem s hx))
      rw [scoreLoop, hrp]
      simp only [evaluate_fluency_no_percentage, hrest, List.map_cons]
      rfl

/-- Witness for C3: one decodable submission yields a single "F" entry with
no percentage and an empty aggregate score list. -/
theorem C3_percentage_keyerror_witness :
    scoreLoop (fun q => q)
      [{ index := none, answer := "hello",
         recordProof := Except.ok
           { decode := some (22050, 22050), rmsEnergy := some [0, 0],
             pyinF0 := some [0], consistency := 1 } }] 0 =
      Except.ok
        ([{ index := 0,
            comment := "Error processing submission: " ++
              keyErrorText "percentage",
            score := "F", percentage := none }], []) := by
  rw [C3_percentage_keyerror (fun q => q) _ 0
    (by intro s hs; simp at hs; exact ⟨_, by rw [hs]⟩)]
  rfl

/-! ## Claim C2: a submission whose recordProof fails to decode -/

/-- C2 counterexample: a batch of three submissions in which exactly the
first has an undecodable recordProof.  The endpoint does not return three
per-item entries; the decode handler of app.py line 127 returns a 400 error
for the whole request, aborting the batch. -/
theorem C2_bad_base64_counterexample :
    scoreLoop (fun q => q)
      [{ index := none, answer := "hello",
         recordProof := Except.error "Incorrect padding" },
       { index := none, answer := "world",
         recordProof := Except.ok
           { decode := some (22050, 22050), rmsEnergy := some [0, 0],
             pyinF0 := some [0], consistency := 1 } },
       { index := none, answer := "again",
         recordProof := Except.ok
           { decode := some (22050, 22050), rmsEnergy := some [0, 0],
             pyinF0 := some [0], consistency := 1 } }] 0 =
      Except.error "Invalid audio data for submission 1: Incorrect padding" := by
  rfl

/-- C2 amended: when any submission's recordProof raises on base64 decode,
the score endpoint aborts the entire batch with a 400 "Invalid audio data"
error and produces no per-item result list; per-item isolation (an "F"
entry while the rest of the batch continues) applies only to failures
raised after a successful decode, such as the evaluation KeyError. -/
theorem C2_bad_base64_amended (sq : ℚ → ℚ) (subs : List Submission) (i : ℕ)
    (h : ∃ s ∈ subs, ∃ e, s.recordProof = Except.error e) :
    ∃ msg, scoreLoop sq subs i = Except.error msg := by
  induction subs generalizing i with
  | nil =>
    obtain ⟨s, hs, -⟩ := h
    exact absurd hs (List.not_mem_nil s)
  | cons s rest ih =>
    cases hrp : s.recordProof with
    | error e =>
      refine ⟨"Invalid audio data for submission " ++
        toString (s.index.getD (i + 1)) ++ ": " ++ e, ?_⟩
      rw [scoreLoop, hrp]
    | ok oracle =>
      have hrest : ∃ x ∈ rest, ∃ e, x.recordProof = Except.error e := by
        obtain ⟨x, hx, e, hxe⟩ := h
        rcases List.mem_cons.mp hx with rfl | hx'
        · rw [hrp] at hxe; cases hxe
        · exact ⟨x, hx', e, hxe⟩
      obtain ⟨msg, hmsg⟩ := ih (i + 1) hrest
      refine ⟨msg, ?_⟩
      rw [scoreLoop, hrp]
      simp only [evaluate_fluency_no_percentage, hmsg]

/-- Witness for C2 amended at the counterexample batch. -/
theorem C2_bad_base64_amended_witness :
    ∃ msg, scoreLoop (fun q => q)
      [{ index := none, answer := "hello",
         recordProof := Except.error "Incorrect padding" }] 0 =
      Except.error msg :=
  C2_bad_base64_amended (fun q => q) _ 0
    ⟨{ index := none, answer := "hello",
       recordProof := Except.error "Incorrect padding" },
     List.mem_cons_self _ _, "Incorrect padding", rfl⟩

/-! ## Positional lookups in the result dictionaries -/

lemma FDict.get?_set_eq (d : FDict) (k : String) (v : FVal)
    (h : k ∈ FDict.keys d) : FDict.get? (FDict.set d k v) k = some v := by
  induction d with
  | nil => simp [FDict.keys] at h
  | cons p ps ih =>
    by_cases hpk : p.1 == k
    · simp [FDict.set, FDict.get?, List.find?, hpk]
    · have h' : k ∈ FDict.keys ps := by
        rcases List.mem_cons.mp h with h1 | h1
        · exact absurd (by simp [h1]) hpk
        · exact h1
      simpa [FDict.set, FDict.get?, List.find?, hpk] using ih h'

lemma FDict.get?_append_left (d1 d2 : FDict) (k : String) (v : FVal)
    (h : FDict.get? d1 k = some v) :
    FDict.get? (d1 ++ d2) k = some v := by
  unfold FDict.get? at *
  rw [List.find?_append]
  cases hf : d1.find? (fun p => p.1 == k) with
  | none => rw [hf] at h; simp at h
  | some p =>
    rw [hf] at h
    simp [hf, Option.orElse]
    simpa using h

lemma get?_baseResult_overall (sq : ℚ → ℚ) (o : AudioOracle)
    (feats : Features) (t : String) :
    FDict.get? (baseResult sq o feats t) "overall_score" =
      some (FVal.s (SCORES.getD (base_score_index sq feats t) "F")) := by
  simp [baseResult, FDict.get?, List.find?]

lemma get?_errorResult_overall (language msg : String) :
    FDict.get? (errorResult language msg) "overall_score" =
      some (FVal.s "F") := by
  simp [errorResult, FDict.get?, List.find?]

lemma overall_mem_keys_baseResult (sq : ℚ → ℚ) (o : AudioOracle)
    (feats : Features) (t : String) :
    "overall_score" ∈ FDict.keys (baseResult sq o feats t) := by
  rw [keys_baseResult]
  decide

/-! ## Claim C8: the Vietnamese demotion is exactly one bucket -/

/-- C8: for every Vietnamese-classified submission whose audio decodes, a
human-likelihood score below 0.5 or an audio-transcript match score below
0.7 each demotes the letter grade to the bucket at min(5, base_index + 1) —
exactly one bucket below the base bucket, never past index 5 — and when
both conditions hold the result is that same single demotion, not a
cumulative one. -/
theorem C8_vi_single_demotion (sq : ℚ → ℚ) (o : AudioOracle) (t : String)
    (feats : Features) (hvi : detect_language t = "vi")
    (hext : extract_audio_features o = some feats) :
    FDict.get? (evaluate_fluency sq o t) "overall_score" =
      some (FVal.s
        (if detect_ai_generated_text sq t < 0.5 ∨
            analyze_audio_transcript_mismatch sq feats t < 0.7 then
          SCORES.getD (min 5 (base_score_index sq feats t + 1)) "F"
        else SCORES.getD (base_score_index sq feats t) "F")) := by
  unfold evaluate_fluency
  rw [hext]
  show FDict.get?
    (if detect_language t = "vi" then
      viAdjust sq feats t (baseResult sq o feats t)
    else baseResult sq o feats t) "overall_score" = _
  rw [if_pos hvi]
  simp only [viAdjust, demoted_grade]
  by_cases hai : detect_ai_generated_text sq t < 0.5 <;>
    by_cases ham : analyze_audio_transcript_mismatch sq feats t < 0.7
  · rw [if_pos hai, if_pos ham, if_pos (Or.inl hai)]
    apply FDict.get?_set_eq
    rw [FDict.keys_set, FDict.keys_append, keys_baseResult]
    simp [FDict.keys]
  · rw [if_pos hai, if_neg ham, if_pos (Or.inl hai)]
    apply FDict.get?_set_eq
    rw [FDict.keys_append, keys_baseResult]
    simp [FDict.keys]
  · rw [if_neg hai, if_pos ham, if_pos (Or.inr ham)]
    apply FDict.get?_set_eq
    rw [FDict.keys_append, keys_baseResult]
    simp [FDict.keys]
  · rw [if_neg hai, if_neg ham, if_neg (not_or.mpr ⟨hai, ham⟩)]
    exact FDict.get?_append_left _ _ _ _ (get?_baseResult_overall sq o feats t)

/-- Witness for C8 at a Vietnamese one-word transcript and a 1-second
decodable oracle; the theorem's hypotheses are discharged concretely. -/
theorem C8_vi_single_demotion_witness :
    FDict.get?
      (evaluate_fluency (fun q => q)
        { decode := some (22050, 22050), rmsEnergy := some [0, 0],
          pyinF0 := some [0], consistency := 1 } "à") "overall_score" =
      some (FVal.s
        (if detect_ai_generated_text (fun q => q) "à" < 0.5 ∨
            analyze_audio_transcript_mismatch (fun q => q)
              ⟨22050, 22050, 1, [0, 0], [0]⟩ "à" < 0.7 then
          SCORES.getD
            (min 5 (base_score_index (fun q => q)
              ⟨22050, 22050, 1, [0, 0], [0]⟩ "à" + 1)) "F"
        else SCORES.getD
          (base_score_index (fun q => q) ⟨22050, 22050, 1, [0, 0], [0]⟩ "à")
          "F")) := by
  apply C8_vi_single_demotion (fun q => q)
    { decode := some (22050, 22050), rmsEnergy := some [0, 0],
      pyinF0 := some [0], consistency := 1 } "à" ⟨22050, 22050, 1, [0, 0], [0]⟩
  · decide
  · unfold extract_audio_features
    norm_num [MAX_DURATION]

/-! ## Claim C4: decode failures versus feature-extraction failures -/

/-- C4 amended: evaluate_fluency never propagates an exception — it returns
a dictionary on every input.  A decode failure (the oracle decodes to the
None sentinel) is converted into the terminal result with overall_score
"F", an error field and zero-valued metrics; but a feature-extraction
failure after a successful decode is caught inside the extractor and
replaced by zero-filled placeholder features, after which evaluation
continues normally and the result carries no error field at all (and its
grade can be any letter, including "A"). -/
theorem C4_error_isolation_amended (sq : ℚ → ℚ) (o : AudioOracle)
    (t : String) :
    (o.decode = none →
      evaluate_fluency sq o t =
        errorResult (detect_language t) "Audio processing failed") ∧
    (∀ feats, extract_audio_features o = some feats →
      FDict.get? (evaluate_fluency sq o t) "error" = none) := by
  constructor
  · intro h
    unfold evaluate_fluency extract_audio_features
    rw [h]
  · intro feats hext
    unfold evaluate_fluency
    rw [hext]
    show FDict.get?
      (if detect_language t = "vi" then
        viAdjust sq feats t (baseResult sq o feats t)
      else baseResult sq o feats t) "error" = none
    rw [FDict.get?_eq_none_iff]
    by_cases hvi : detect_language t = "vi"
    · rw [if_pos hvi, keys_viAdjust, keys_baseResult]
      decide
    · rw [if_neg hvi, keys_baseResult]
      decide

/-- Witness for C4 amended: a decode failure yields the terminal error
result, and a decodable oracle yields a result with no error field. -/
theorem C4_error_isolation_amended_witness :
    evaluate_fluency (fun q => q)
      { decode := none, rmsEnergy := none, pyinF0 := none, consistency := 1 }
      "hello" = errorResult "en" "Audio processing failed" ∧
    FDict.get? (evaluate_fluency (fun q => q)
      { decode := some (22050, 22050), rmsEnergy := some [0, 0],
        pyinF0 := some [0], consistency := 1 } "hello") "error" = none := by
  constructor
  · rw [(C4_error_isolation_amended (fun q => q)
      { decode := none, rmsEnergy := none, pyinF0 := none, consistency := 1 }
      "hello").1 rfl]
    have hl : detect_language "hello" = "en" := by decide
    rw [hl]
  · exact (C4_error_isolation_amended (fun q => q)
      { decode := some (22050, 22050), rmsEnergy := some [0, 0],
        pyinF0 := some [0], consistency := 1 } "hello").2
      ⟨22050, 22050, 1, [0, 0], [0]⟩
      (by unfold extract_audio_features; norm_num [MAX_DURATION])

/-- C4 counterexample: an oracle whose audio decodes (4 s at 22050 Hz) but
whose rms feature extraction fails, with a 10-word transcript.  The claim
says any feature-extraction failure is converted into a terminal "F" result
with an error field; instead the evaluation continues on the zero-filled
placeholder features and returns grade "A" with no error field. -/
theorem C4_feature_failure_counterexample :
    (({ decode := some (88200, 22050), rmsEnergy := none, pyinF0 := some [0],
        consistency := 1 } : AudioOracle).rmsEnergy = none) ∧
    FDict.get? (evaluate_fluency (fun q => q)
      { decode := some (88200, 22050), rmsEnergy := none, pyinF0 := some [0],
        consistency := 1 }
      "alpha bravo charlie delta echo foxtrot golf hotel india juliet")
      "overall_score" = some (FVal.s "A") ∧
    FDict.get? (evaluate_fluency (fun q => q)
      { decode := some (88200, 22050), rmsEnergy := none, pyinF0 := some [0],
        consistency := 1 }
      "alpha bravo charlie delta echo foxtrot golf hotel india juliet")
      "error" = none := by
  have hext : extract_audio_features
      { decode := some (88200, 22050), rmsEnergy := none, pyinF0 := some [0],
        consistency := 1 } = some ⟨88200, 22050, 4, [0], [0]⟩ := by
    unfold extract_audio_features
    norm_num [MAX_DURATION]
  have hlang : detect_language
      "alpha bravo charlie delta echo foxtrot golf hotel india juliet" =
      "en" := by decide
  have hnw : num_words_of
      "alpha bravo charlie delta echo foxtrot golf hotel india juliet" =
      10 := by decide
  have hwpm : wpm_of (⟨88200, 22050, 4, [0], [0]⟩ : Features)
      "alpha bravo charlie delta echo foxtrot golf hotel india juliet" =
      150 := by
    unfold wpm_of calculate_wpm duration_of
    rw [hnw]
    norm_num
  have hsil : silence_of (⟨88200, 22050, 4, [0], [0]⟩ : Features) = [] := rfl
  have hpf : pause_freq_of (⟨88200, 22050, 4, [0], [0]⟩ : Features) = 0 := by
    unfold pause_freq_of calculate_pause_frequency duration_of
    rw [hsil]
    norm_num
  have hap : avg_pause_of (⟨88200, 22050, 4, [0], [0]⟩ : Features) = 0 := by
    unfold avg_pause_of calculate_average_pause_duration
    rw [hsil]
    rfl
  have hfc : filler_count_of
      "alpha bravo charlie delta echo foxtrot golf hotel india juliet" =
      0 := by decide
  have hpv : pitch_variation_of (fun q => q)
      (⟨88200, 22050, 4, [0], [0]⟩ : Features) = 0 := by
    unfold pitch_variation_of calculate_pitch_variation
    norm_num [List.filter]
  have hr1 : normalize_score 150 WPM_RANGE_EN = 1 := by
    norm_num [normalize_score, WPM_RANGE_EN]
  have hr2 : normalize_score 0 PAUSE_FREQ_RANGE_EN = 7/10 := by
    norm_num [normalize_score, PAUSE_FREQ_RANGE_EN, abs_of_nonpos]
  have hr3 : normalize_score 0 AVG_PAUSE_DURATION_RANGE_EN = 11/13 := by
    norm_num [normalize_score, AVG_PAUSE_DURATION_RANGE_EN, abs_of_nonneg]
  have hr4 : normalize_score 0 FILLER_WORD_RATIO_RANGE_EN = 13/14 := by
    norm_num [normalize_score, FILLER_WORD_RATIO_RANGE_EN, abs_of_nonneg]
  have hr5 : normalize_score 0 PITCH_VARIATION_RANGE_EN = 4/5 := by
    norm_num [normalize_score, PITCH_VARIATION_RANGE_EN, abs_of_nonneg]
  have hren : get_ranges_for_language "en" =
      Ranges.mk WPM_RANGE_EN PAUSE_FREQ_RANGE_EN AVG_PAUSE_DURATION_RANGE_EN
        FILLER_WORD_RATIO_RANGE_EN PITCH_VARIATION_RANGE_EN := by
    unfold get_ranges_for_language
    rw [if_neg]
    decide
  have hb : basic_fluency_score (fun q => q)
      (⟨88200, 22050, 4, [0], [0]⟩ : Features)
      "alpha bravo charlie delta echo foxtrot golf hotel india juliet" =
      15651 / 18200 := by
    unfold basic_fluency_score
    rw [hlang, hwpm, hpf, hap, hfc, hpv, hnw, hren]
    norm_num [hr1, hr2, hr3, hr4, hr5, min_def, max_def]
  have hidx : base_score_index (fun q => q)
      (⟨88200, 22050, 4, [0], [0]⟩ : Features)
      "alpha bravo charlie delta echo foxtrot golf hotel india juliet" =
      0 := by
    unfold base_score_index code_score_index pyInt
    rw [hb]
    norm_num
  refine ⟨rfl, ?_, ?_⟩
  · unfold evaluate_fluency
    rw [hext]
    show FDict.get?
      (if detect_language
          "alpha bravo charlie delta echo foxtrot golf hotel india juliet" =
          "vi" then
        viAdjust (fun q => q) ⟨88200, 22050, 4, [0], [0]⟩
          "alpha bravo charlie delta echo foxtrot golf hotel india juliet"
          (baseResult (fun q => q)
            { decode := some (88200, 22050), rmsEnergy := none,
              pyinF0 := some [0], consistency := 1 }
            ⟨88200, 22050, 4, [0], [0]⟩
            "alpha bravo charlie delta echo foxtrot golf hotel india juliet")
      else baseResult (fun q => q)
        { decode := some (88200, 22050), rmsEnergy := none,
          pyinF0 := some [0], consistency := 1 }
        ⟨88200, 22050, 4, [0], [0]⟩
        "alpha bravo charlie delta echo foxtrot golf hotel india juliet")
      "overall_score" = some (FVal.s "A")
    rw [if_neg (by rw [hlang]; decide), get?_baseResult_overall, hidx]
    rfl
  · unfold evaluate_fluency
    rw [hext]
    show FDict.get?
      (if detect_language
          "alpha bravo charlie delta echo foxtrot golf hotel india juliet" =
          "vi" then
        viAdjust (fun q => q) ⟨88200, 22050, 4, [0], [0]⟩
          "alpha bravo charlie delta echo foxtrot golf hotel india juliet"
          (baseResult (fun q => q)
            { decode := some (88200, 22050), rmsEnergy := none,
              pyinF0 := some [0], consistency := 1 }
            ⟨88200, 22050, 4, [0], [0]⟩
            "alpha bravo charlie delta echo foxtrot golf hotel india juliet")
      else baseResult (fun q => q)
        { decode := some (88200, 22050), rmsEnergy := none,
          pyinF0 := some [0], consistency := 1 }
        ⟨88200, 22050, 4, [0], [0]⟩
        "alpha bravo charlie delta echo foxtrot golf hotel india juliet")
      "error" = none
    rw [if_neg (by rw [hlang]; decide), FDict.get?_eq_none_iff,
      keys_baseResult]
    decide

end Karma
